import Mathlib

/-!
Verification of RetroCore's audio engine (src/audio/mod.rs, src/audio/sources.rs).

The Rust code works over `f32`; the embedding models that arithmetic exactly over
`ℚ` (and over `ℝ` where the code calls `sin`).  Rust panics are modelled as
`Option.none`.  The mutable `Arc<Mutex<...>>` cells shared between `Channels`
and `ChannelHook` become one explicit `ChannelsState` record that both the
mixer's pull and the hook's setters transform.
-/

/-- Rust's `%` operator on floats is the truncated remainder
`a - b * trunc (a / b)` (sign of the dividend), modelled over `ℚ`. -/
def f32Rem (a b : ℚ) : ℚ :=
  a - b * (if 0 ≤ a / b then (⌊a / b⌋ : ℚ) else (⌈a / b⌉ : ℚ))

/-- `const SAMPLE_RATE: u32 = 41000;` (src/audio/mod.rs line 15). -/
def SAMPLE_RATE : ℚ := 41000

/-- `self.phase = (self.phase + self.frequency / SAMPLE_RATE as f32) % 1.0;`,
the phase-advance statement every generator's `next` ends with. -/
def phaseAdvance (phase frequency : ℚ) : ℚ :=
  f32Rem (phase + frequency / SAMPLE_RATE) 1

/-- `struct SquareWave { phase: f32, frequency: f32 }`. -/
structure SquareWave where
  phase : ℚ
  frequency : ℚ

/-- `SquareWave::new` (src/audio/sources.rs lines 19-24). -/
def SquareWave.new (frequency : ℚ) : SquareWave :=
  { phase := 0, frequency := frequency }

/-- `impl Iterator for SquareWave` (src/audio/sources.rs lines 45-53); the Rust
iterator always returns `Some`, so the model returns the sample directly. -/
def SquareWave.next (w : SquareWave) : ℚ × SquareWave :=
  (if w.phase < 0.5 then 1 else -1,
   { phase := phaseAdvance w.phase w.frequency, frequency := w.frequency })

/-- `SquareWave::set_frequency` (src/audio/sources.rs lines 55-59). -/
def SquareWave.set_frequency (w : SquareWave) (frequency : ℚ) : SquareWave :=
  { w with frequency := frequency }

/-- `struct SawtoothWave { phase: f32, frequency: f32 }`. -/
structure SawtoothWave where
  phase : ℚ
  frequency : ℚ

/-- `SawtoothWave::new` (src/audio/sources.rs lines 70-75). -/
def SawtoothWave.new (frequency : ℚ) : SawtoothWave :=
  { phase := 0, frequency := frequency }

/-- `impl Iterator for SawtoothWave` (src/audio/sources.rs lines 94-102). -/
def SawtoothWave.next (w : SawtoothWave) : ℚ × SawtoothWave :=
  (w.phase * 2 - 1,
   { phase := phaseAdvance w.phase w.frequency, frequency := w.frequency })

/-- `SawtoothWave::set_frequency` (src/audio/sources.rs lines 104-108). -/
def SawtoothWave.set_frequency (w : SawtoothWave) (frequency : ℚ) : SawtoothWave :=
  { w with frequency := frequency }

/-- `struct TriangleWave { phase: f32, frequency: f32 }`. -/
structure TriangleWave where
  phase : ℚ
  frequency : ℚ

/-- `TriangleWave::new` (src/audio/sources.rs lines 119-124). -/
def TriangleWave.new (frequency : ℚ) : TriangleWave :=
  { phase := 0, frequency := frequency }

/-- `impl Iterator for TriangleWave` (src/audio/sources.rs lines 142-153). -/
def TriangleWave.next (w : TriangleWave) : ℚ × TriangleWave :=
  ((if w.phase < 0.5 then w.phase * 4 - 1 else -(w.phase * 4 - 3)),
   { phase := phaseAdvance w.phase w.frequency, frequency := w.frequency })

/-- `TriangleWave::set_frequency` (src/audio/sources.rs lines 155-159). -/
def TriangleWave.set_frequency (w : TriangleWave) (frequency : ℚ) : TriangleWave :=
  { w with frequency := frequency }

/-- `struct SineWave { phase: f32, frequency: f32 }`. -/
structure SineWave where
  phase : ℚ
  frequency : ℚ

/-- `SineWave::new` (src/audio/sources.rs lines 170-175). -/
def SineWave.new (frequency : ℚ) : SineWave :=
  { phase := 0, frequency := frequency }

/-- `impl Iterator for SineWave` (src/audio/sources.rs lines 193-200):
`(self.phase * 2.0 * PI).sin()`; the sample lives in `ℝ`. -/
noncomputable def SineWave.next (w : SineWave) : ℝ × SineWave :=
  (Real.sin ((w.phase : ℝ) * 2 * Real.pi),
   { phase := phaseAdvance w.phase w.frequency, frequency := w.frequency })

/-- `SineWave::set_frequency` (src/audio/sources.rs lines 202-206). -/
def SineWave.set_frequency (w : SineWave) (frequency : ℚ) : SineWave :=
  { w with frequency := frequency }

/-- `struct WhiteNoise;` a unit struct (src/audio/sources.rs line 210); its
`next` draws from an RNG and is not modelled (no claim depends on its value). -/
structure WhiteNoise where

/-- `WhiteNoise::set_frequency` is an explicit no-op
(src/audio/sources.rs lines 219-221). -/
def WhiteNoise.set_frequency (w : WhiteNoise) (_frequency : ℚ) : WhiteNoise :=
  w

/-- `struct SemiTriangle { phase: f32, frequency: f32 }`. -/
structure SemiTriangle where
  phase : ℚ
  frequency : ℚ

/-- `SemiTriangle::new` (src/audio/sources.rs lines 255-260). -/
def SemiTriangle.new (frequency : ℚ) : SemiTriangle :=
  { phase := 0, frequency := frequency }

/-- `impl Iterator for SemiTriangle` (src/audio/sources.rs lines 278-293). -/
def SemiTriangle.next (w : SemiTriangle) : ℚ × SemiTriangle :=
  ((if w.phase ≤ 0.25 then w.phase * 8 - 1
    else if w.phase ≤ 0.5 then 1 - (w.phase - 0.25) * 4
    else if w.phase ≤ 0.75 then (w.phase - 0.5) * 4
    else 1 - ((w.phase - 0.75) * 8)),
   { phase := phaseAdvance w.phase w.frequency, frequency := w.frequency })

/-- `SemiTriangle::set_frequency` (src/audio/sources.rs lines 295-299). -/
def SemiTriangle.set_frequency (w : SemiTriangle) (frequency : ℚ) : SemiTriangle :=
  { w with frequency := frequency }

/-- `struct SemiSine { phase: f32, frequency: f32 }`. -/
structure SemiSine where
  phase : ℚ
  frequency : ℚ

/-- `SemiSine::new` (src/audio/sources.rs lines 310-315). -/
def SemiSine.new (frequency : ℚ) : SemiSine :=
  { phase := 0, frequency := frequency }

/-- `impl Iterator for SemiSine` (src/audio/sources.rs lines 333-340):
`(self.phase * PI).sin() * 2.0 - 1.0`. -/
noncomputable def SemiSine.next (w : SemiSine) : ℝ × SemiSine :=
  (Real.sin ((w.phase : ℝ) * Real.pi) * 2 - 1,
   { phase := phaseAdvance w.phase w.frequency, frequency := w.frequency })

/-- `SemiSine::set_frequency` (src/audio/sources.rs lines 342-346). -/
def SemiSine.set_frequency (w : SemiSine) (frequency : ℚ) : SemiSine :=
  { w with frequency := frequency }

/-- `struct StepSquare { phase: f32, frequency: f32 }`. -/
structure StepSquare where
  phase : ℚ
  frequency : ℚ

/-- `StepSquare::new` (src/audio/sources.rs lines 357-362). -/
def StepSquare.new (frequency : ℚ) : StepSquare :=
  { phase := 0, frequency := frequency }

/-- `impl Iterator for StepSquare` (src/audio/sources.rs lines 380-395). -/
def StepSquare.next (w : StepSquare) : ℚ × StepSquare :=
  ((if w.phase ≤ 0.25 then -1
    else if w.phase ≤ 0.5 then 0
    else if w.phase ≤ 0.75 then 1
    else 0),
   { phase := phaseAdvance w.phase w.frequency, frequency := w.frequency })

/-- `StepSquare::set_frequency` (src/audio/sources.rs lines 397-401). -/
def StepSquare.set_frequency (w : StepSquare) (frequency : ℚ) : StepSquare :=
  { w with frequency := frequency }

/-- A trait object `dyn AdjustableSource<Item = f32>` as the mixer sees it:
the stream of samples successive pulls return (`sample t` is the value of the
`t`-th pull), the three static properties `Channels::new` validates, and the
stream the source produces after `set_frequency` is called on it. -/
structure MSource where
  sample : Nat → ℚ
  totalDuration : Option Nat
  currentFrameLen : Option Nat
  channels : Nat
  applyFrequency : ℚ → Nat → ℚ

/-- The shared state behind a `Channels` / `ChannelHook` pair: the source and
volume vectors (shared through `Arc<Mutex<...>>` in the Rust code) plus how
many samples have been pulled so far. -/
structure ChannelsState where
  sources : List MSource
  volume : List ℚ
  tick : Nat

/-- `Channels::new` (src/audio/mod.rs lines 55-73): builds one 0.2 volume per
source, then panics (`none`) if any source has a finite `total_duration` or
`current_frame_len`, or a channel count other than 1. -/
def Channels.new (sources : List MSource) : Option ChannelsState :=
  if sources.all
      (fun s => (s.totalDuration.isNone && s.currentFrameLen.isNone) && s.channels == 1)
  then some { sources := sources
            , volume := List.replicate sources.length (0.2 : ℚ)
            , tick := 0 }
  else none

/-- `struct ChannelsBuilder { sources: Vec<...> }` (src/audio/mod.rs lines 23-25). -/
structure ChannelsBuilder where
  sources : List MSource

/-- `ChannelsBuilder::new` (src/audio/mod.rs lines 28-32). -/
def ChannelsBuilder.new : ChannelsBuilder :=
  { sources := [] }

/-- `ChannelsBuilder::add_source` (src/audio/mod.rs lines 33-39). -/
def ChannelsBuilder.add_source (b : ChannelsBuilder) (s : MSource) : ChannelsBuilder :=
  { sources := b.sources ++ [s] }

/-- `ChannelsBuilder::build` (src/audio/mod.rs lines 49-52). -/
def ChannelsBuilder.build (b : ChannelsBuilder) : Option ChannelsState :=
  Channels.new b.sources

/-- `impl Iterator for Channels` (src/audio/mod.rs lines 76-86): the loop
`result += source.next().unwrap_or(0.0) * volume[i]` over the channels,
then `Some(result / len)`; `Channels::new` makes `volume` and `sources`
the same length, so indexing by position is the zip of the two vectors. -/
def Channels.next (c : ChannelsState) : Option ℚ × ChannelsState :=
  (some ((((c.sources.zip c.volume).map (fun p => p.1.sample c.tick * p.2)).foldl
      (fun acc x => acc + x) 0) / (c.sources.length : ℚ)),
   { c with tick := c.tick + 1 })

/-- `ChannelHook::set_frequency` (src/audio/mod.rs lines 114-116):
`self.sources[index]` panics (`none`) when the index is out of range. -/
def ChannelHook.set_frequency (c : ChannelsState) (index : Nat) (frequency : ℚ) :
    Option ChannelsState :=
  if h : index < c.sources.length then
    let s := c.sources.get ⟨index, h⟩
    some { c with sources := c.sources.set index { s with sample := s.applyFrequency frequency } }
  else none

/-- `ChannelHook::set_volume` (src/audio/mod.rs lines 119-121):
`self.volume[index]` panics (`none`) when the index is out of range. -/
def ChannelHook.set_volume (c : ChannelsState) (index : Nat) (volume : ℚ) :
    Option ChannelsState :=
  if index < c.volume.length then
    some { c with volume := c.volume.set index volume }
  else none

/-- A concrete well-formed mono, unbounded source emitting the constant 1. -/
def oneSource : MSource :=
  { sample := fun _ => 1
  , totalDuration := none
  , currentFrameLen := none
  , channels := 1
  , applyFrequency := fun _ _ => 1 }

theorem f32Rem_one_of_nonneg (x : ℚ) (hx : 0 ≤ x) : f32Rem x 1 = Int.fract x := by
  unfold f32Rem
  rw [div_one, if_pos hx, one_mul]
  rfl

theorem phaseAdvance_eq_fract (p f : ℚ) (hp : 0 ≤ p) (hf : 0 ≤ f) :
    phaseAdvance p f = Int.fract (p + f / SAMPLE_RATE) := by
  have hs : 0 ≤ p + f / SAMPLE_RATE := by
    have : (0 : ℚ) ≤ f / SAMPLE_RATE := by
      apply div_nonneg hf
      norm_num [SAMPLE_RATE]
    linarith
  exact f32Rem_one_of_nonneg _ hs

theorem phaseAdvance_mem (p f : ℚ) (hp : 0 ≤ p) (hf : 0 ≤ f) :
    0 ≤ phaseAdvance p f ∧ phaseAdvance p f < 1 := by
  rw [phaseAdvance_eq_fract p f hp hf]
  exact ⟨Int.fract_nonneg _, Int.fract_lt_one _⟩

theorem foldl_add_eq_sum (l : List ℚ) (a : ℚ) :
    l.foldl (fun acc x => acc + x) a = a + l.sum := by
  induction l generalizing a with
  | nil => simp
  | cons x xs ih => simp [ih, add_assoc]

theorem zip_ones_sum (t : Nat) :
    ∀ (sources : List MSource) (vols : List ℚ),
      vols.length = sources.length →
      (∀ s ∈ sources, ∀ u, s.sample u = 1) →
      ((sources.zip vols).map (fun p => p.1.sample t * p.2)).sum = vols.sum := by
  intro sources
  induction sources with
  | nil =>
    intro vols h _
    rw [List.length_eq_zero.mp h]
    simp
  | cons s ss ih =>
    intro vols hlen hall
    cases vols with
    | nil => simp at hlen
    | cons v vs =>
      simp only [List.zip_cons_cons, List.map_cons, List.sum_cons]
      rw [hall s (by simp) t, one_mul,
        ih vs (by simpa using hlen) (fun x hx u => hall x (by simp [hx]) u)]

/-- C2: constructing a `Channels` mixer succeeds exactly when every supplied
source reports no total duration, no current frame length, and channel
count 1; any source with a finite duration, finite frame length, or non-mono
channel count makes construction fail (panic, modelled as `none`). -/
theorem channels_new_validation (sources : List MSource) :
    (Channels.new sources).isSome ↔
      ∀ s ∈ sources, s.totalDuration = none ∧ s.currentFrameLen = none ∧ s.channels = 1 := by
  unfold Channels.new
  split
  case isTrue h =>
    simp only [Option.isSome_some, true_iff]
    intro s hs
    have hb := List.all_eq_true.mp h s hs
    simp only [Bool.and_eq_true, Option.isNone_iff_eq_none, beq_iff_eq] at hb
    exact ⟨hb.1.1, hb.1.2, hb.2⟩
  case isFalse h =>
    simp only [Option.isSome_none, Bool.false_eq_true, false_iff]
    intro hall
    apply h
    apply List.all_eq_true.mpr
    intro s hs
    simp only [Bool.and_eq_true, Option.isNone_iff_eq_none, beq_iff_eq]
    exact ⟨⟨(hall s hs).1, (hall s hs).2.1⟩, (hall s hs).2.2⟩

/-- C9: whenever construction succeeds, every channel's initial volume is the
literal 0.2, whatever the sources were. -/
theorem channels_default_volume (sources : List MSource) (c : ChannelsState)
    (h : Channels.new sources = some c) :
    c.volume = List.replicate sources.length (0.2 : ℚ) := by
  unfold Channels.new at h
  split at h
  · cases h
    rfl
  · exact absurd h (by simp)

/-- The state a one-source build produces, used as a concrete input below. -/
def builtOne : ChannelsState :=
  { sources := [oneSource], volume := [(0.2 : ℚ)], tick := 0 }

/-- Witness for C9: building from one concrete mono unbounded source satisfies
the hypothesis, and its volume vector is `[0.2]`. -/
theorem channels_default_volume_witness :
    Channels.new [oneSource] = some builtOne ∧
      builtOne.volume = List.replicate 1 (0.2 : ℚ) :=
  ⟨rfl, channels_default_volume [oneSource] builtOne rfl⟩

/-- C7: for a mixer state whose volume and source vectors have the same length
(as every constructed mixer does), the hook setters succeed at every index
below the channel count and fail fast (panic, modelled as `none`) at every
index at or above it. -/
theorem channel_hook_index_check (c : ChannelsState)
    (hlen : c.volume.length = c.sources.length) (i : Nat) (f v : ℚ) :
    (i < c.sources.length →
      (ChannelHook.set_frequency c i f).isSome ∧ (ChannelHook.set_volume c i v).isSome) ∧
    (c.sources.length ≤ i →
      ChannelHook.set_frequency c i f = none ∧ ChannelHook.set_volume c i v = none) := by
  constructor
  · intro hi
    constructor
    · rw [ChannelHook.set_frequency, dif_pos hi]
      rfl
    · rw [ChannelHook.set_volume, if_pos (by omega)]
      rfl
  · intro hi
    constructor
    · rw [ChannelHook.set_frequency, dif_neg (by omega)]
    · rw [ChannelHook.set_volume, if_neg (by omega)]

/-- Witness for C7: on the concrete one-channel mixer, index 0 succeeds for
both setters and index 1 fails for both. -/
theorem channel_hook_index_check_witness :
    builtOne.volume.length = builtOne.sources.length ∧
      (ChannelHook.set_frequency builtOne 0 440).isSome ∧
      (ChannelHook.set_volume builtOne 0 (1/2)).isSome ∧
      ChannelHook.set_frequency builtOne 1 440 = none ∧
      ChannelHook.set_volume builtOne 1 (1/2) = none := by
  have h0 := (channel_hook_index_check builtOne rfl 0 440 (1/2)).1 (by decide)
  have h1 := (channel_hook_index_check builtOne rfl 1 440 (1/2)).2 (by decide)
  exact ⟨rfl, h0.1, h0.2, h1.1, h1.2⟩

/-- C8: building from the empty source list passes validation and yields the
empty mixer, and every pull of that mixer still returns `some` — the sum 0
divided by the channel count 0 — never `none` (in `f32` this 0/0 renders as
NaN; over `ℚ` it is the total division 0/0). -/
theorem empty_mixer_builds_and_pulls :
    ChannelsBuilder.new.build =
      some { sources := [], volume := [], tick := 0 } ∧
    ∀ t : Nat,
      (Channels.next { sources := [], volume := [], tick := t }).1 =
        some ((0 : ℚ) / ((0 : ℚ))) ∧
      ((Channels.next { sources := [], volume := [], tick := t }).1).isSome := by
  refine ⟨rfl, fun t => ⟨?_, rfl⟩⟩
  simp [Channels.next]

/-- C1: each pull of a mixer (with as many volumes as sources, as construction
guarantees, and at least one source) returns `some` of the sum over channels
of sample-times-volume divided by the channel count — the arithmetic mean —
and when every source emits the constant 1 the output is the mean of the
volumes. -/
theorem channels_next_is_mean (c : ChannelsState)
    (hlen : c.volume.length = c.sources.length) (hN : 1 ≤ c.sources.length) :
    (Channels.next c).1 =
      some ((((c.sources.zip c.volume).map (fun p => p.1.sample c.tick * p.2)).sum) /
        (c.sources.length : ℚ)) ∧
    ((∀ s ∈ c.sources, ∀ t, s.sample t = 1) →
      (Channels.next c).1 = some (c.volume.sum / (c.sources.length : ℚ))) := by
  have hfold :
      (((c.sources.zip c.volume).map (fun p => p.1.sample c.tick * p.2)).foldl
        (fun acc x => acc + x) 0) =
      ((c.sources.zip c.volume).map (fun p => p.1.sample c.tick * p.2)).sum := by
    rw [foldl_add_eq_sum, zero_add]
  constructor
  · simp only [Channels.next, hfold]
  · intro hone
    simp only [Channels.next, hfold]
    rw [zip_ones_sum c.tick c.sources c.volume hlen hone]

/-- A concrete two-channel mixer state over constant-1 sources. -/
def mixTwo : ChannelsState :=
  { sources := [oneSource, oneSource]
  , volume := [(3/10 : ℚ), (1/2 : ℚ)]
  , tick := 0 }

/-- Witness for C1: on the concrete two-channel constant-1 mixer with volumes
3/10 and 1/2, the pull returns the mean (3/10 + 1/2) / 2. -/
theorem channels_next_is_mean_witness :
    mixTwo.volume.length = mixTwo.sources.length ∧ 1 ≤ mixTwo.sources.length ∧
      (Channels.next mixTwo).1 = some (((3/10 : ℚ) + 1/2) / 2) := by
  have h := (channels_next_is_mean mixTwo rfl (by decide)).2 (by
    intro s hs t
    rcases List.mem_cons.mp hs with h1 | h2
    · rw [h1]
      rfl
    · rcases List.mem_cons.mp h2 with h3 | h4
      · rw [h3]
        rfl
      · cases h4)
  refine ⟨rfl, by decide, ?_⟩
  rw [h]
  norm_num [mixTwo]

/-- C3: for every generator, with nonnegative frequency and phase in [0,1),
one pull sets the phase to the fractional part of
`phase + frequency / SAMPLE_RATE` — the advance by `frequency / 41000`
wrapped modulo 1 — which again lies in [0,1). -/
theorem generator_phase_invariant (p f : ℚ) (hf : 0 ≤ f) (hp0 : 0 ≤ p) (hp1 : p < 1) :
    ((SquareWave.next ⟨p, f⟩).2.phase = Int.fract (p + f / SAMPLE_RATE) ∧
      0 ≤ (SquareWave.next ⟨p, f⟩).2.phase ∧ (SquareWave.next ⟨p, f⟩).2.phase < 1) ∧
    ((SawtoothWave.next ⟨p, f⟩).2.phase = Int.fract (p + f / SAMPLE_RATE) ∧
      0 ≤ (SawtoothWave.next ⟨p, f⟩).2.phase ∧ (SawtoothWave.next ⟨p, f⟩).2.phase < 1) ∧
    ((TriangleWave.next ⟨p, f⟩).2.phase = Int.fract (p + f / SAMPLE_RATE) ∧
      0 ≤ (TriangleWave.next ⟨p, f⟩).2.phase ∧ (TriangleWave.next ⟨p, f⟩).2.phase < 1) ∧
    ((SineWave.next ⟨p, f⟩).2.phase = Int.fract (p + f / SAMPLE_RATE) ∧
      0 ≤ (SineWave.next ⟨p, f⟩).2.phase ∧ (SineWave.next ⟨p, f⟩).2.phase < 1) ∧
    ((SemiTriangle.next ⟨p, f⟩).2.phase = Int.fract (p + f / SAMPLE_RATE) ∧
      0 ≤ (SemiTriangle.next ⟨p, f⟩).2.phase ∧ (SemiTriangle.next ⟨p, f⟩).2.phase < 1) ∧
    ((SemiSine.next ⟨p, f⟩).2.phase = Int.fract (p + f / SAMPLE_RATE) ∧
      0 ≤ (SemiSine.next ⟨p, f⟩).2.phase ∧ (SemiSine.next ⟨p, f⟩).2.phase < 1) ∧
    ((StepSquare.next ⟨p, f⟩).2.phase = Int.fract (p + f / SAMPLE_RATE) ∧
      0 ≤ (StepSquare.next ⟨p, f⟩).2.phase ∧ (StepSquare.next ⟨p, f⟩).2.phase < 1) := by
  have heq := phaseAdvance_eq_fract p f hp0 hf
  have hmem := phaseAdvance_mem p f hp0 hf
  exact ⟨⟨heq, hmem.1, hmem.2⟩, ⟨heq, hmem.1, hmem.2⟩, ⟨heq, hmem.1, hmem.2⟩,
    ⟨heq, hmem.1, hmem.2⟩, ⟨heq, hmem.1, hmem.2⟩, ⟨heq, hmem.1, hmem.2⟩,
    ⟨heq, hmem.1, hmem.2⟩⟩

/-- Witness for C3: frequency 220 and phase 0 satisfy the hypotheses, and
one pull of the square and sine generators leaves the phase in [0,1). -/
theorem generator_phase_invariant_witness :
    (0 : ℚ) ≤ 220 ∧ (0 : ℚ) ≤ 0 ∧ (0 : ℚ) < 1 ∧
      (0 ≤ (SquareWave.next ⟨0, 220⟩).2.phase ∧ (SquareWave.next ⟨0, 220⟩).2.phase < 1) ∧
      (0 ≤ (SineWave.next ⟨0, 220⟩).2.phase ∧ (SineWave.next ⟨0, 220⟩).2.phase < 1) := by
  have h := generator_phase_invariant 0 220 (by norm_num) (le_refl 0) (by norm_num)
  exact ⟨by norm_num, le_refl 0, by norm_num,
    ⟨h.1.2.1, h.1.2.2⟩, ⟨h.2.2.2.1.2.1, h.2.2.2.1.2.2⟩⟩

/-- C4: for every phase in [0,1) (any frequency), the sample produced by the
square, sawtooth, triangle, semi-triangle, semi-sine and step-square
generators lies within [-1, 1]. -/
theorem generator_sample_bounds (p f : ℚ) (hp0 : 0 ≤ p) (hp1 : p < 1) :
    (-1 ≤ (SquareWave.next ⟨p, f⟩).1 ∧ (SquareWave.next ⟨p, f⟩).1 ≤ 1) ∧
    (-1 ≤ (SawtoothWave.next ⟨p, f⟩).1 ∧ (SawtoothWave.next ⟨p, f⟩).1 ≤ 1) ∧
    (-1 ≤ (TriangleWave.next ⟨p, f⟩).1 ∧ (TriangleWave.next ⟨p, f⟩).1 ≤ 1) ∧
    (-1 ≤ (SemiTriangle.next ⟨p, f⟩).1 ∧ (SemiTriangle.next ⟨p, f⟩).1 ≤ 1) ∧
    (-1 ≤ (SemiSine.next ⟨p, f⟩).1 ∧ (SemiSine.next ⟨p, f⟩).1 ≤ 1) ∧
    (-1 ≤ (StepSquare.next ⟨p, f⟩).1 ∧ (StepSquare.next ⟨p, f⟩).1 ≤ 1) := by
  have hsq : -1 ≤ (SquareWave.next ⟨p, f⟩).1 ∧ (SquareWave.next ⟨p, f⟩).1 ≤ 1 := by
    constructor <;> (simp only [SquareWave.next]; split_ifs <;> norm_num)
  have hsaw : -1 ≤ (SawtoothWave.next ⟨p, f⟩).1 ∧ (SawtoothWave.next ⟨p, f⟩).1 ≤ 1 := by
    constructor <;> (simp only [SawtoothWave.next]; linarith)
  have htri : -1 ≤ (TriangleWave.next ⟨p, f⟩).1 ∧ (TriangleWave.next ⟨p, f⟩).1 ≤ 1 := by
    constructor <;> (simp only [TriangleWave.next]; split_ifs with h <;> linarith)
  have hsemi : -1 ≤ (SemiTriangle.next ⟨p, f⟩).1 ∧ (SemiTriangle.next ⟨p, f⟩).1 ≤ 1 := by
    constructor <;> (simp only [SemiTriangle.next]; split_ifs with h1 h2 h3 <;> linarith)
  have hp0R : (0 : ℝ) ≤ (p : ℝ) := by exact_mod_cast hp0
  have hp1R : ((p : ℝ)) ≤ 1 := by exact_mod_cast hp1.le
  have hs0 : 0 ≤ Real.sin ((p : ℝ) * Real.pi) :=
    Real.sin_nonneg_of_nonneg_of_le_pi (mul_nonneg hp0R Real.pi_pos.le)
      (by linarith [mul_nonneg (sub_nonneg.mpr hp1R) Real.pi_pos.le])
  have hs1 : Real.sin ((p : ℝ) * Real.pi) ≤ 1 := Real.sin_le_one _
  have hss : -1 ≤ (SemiSine.next ⟨p, f⟩).1 ∧ (SemiSine.next ⟨p, f⟩).1 ≤ 1 := by
    constructor <;> (simp only [SemiSine.next]; linarith)
  have hstep : -1 ≤ (StepSquare.next ⟨p, f⟩).1 ∧ (StepSquare.next ⟨p, f⟩).1 ≤ 1 := by
    constructor <;> (simp only [StepSquare.next]; split_ifs <;> norm_num)
  exact ⟨hsq, hsaw, htri, hsemi, hss, hstep⟩

/-- Witness for C4: phase 0 satisfies the hypotheses, and the square and
semi-sine samples at phase 0 are within [-1, 1]. -/
theorem generator_sample_bounds_witness :
    (0 : ℚ) ≤ 0 ∧ (0 : ℚ) < 1 ∧
      (-1 ≤ (SquareWave.next ⟨0, 220⟩).1 ∧ (SquareWave.next ⟨0, 220⟩).1 ≤ 1) ∧
      (-1 ≤ (SemiSine.next ⟨0, 220⟩).1 ∧ (SemiSine.next ⟨0, 220⟩).1 ≤ 1) := by
  have h := generator_sample_bounds 0 220 (le_refl 0) (by norm_num)
  exact ⟨le_refl 0, by norm_num, h.1, h.2.2.2.2.1⟩

/-- C5: for every generator, `set_frequency` overwrites the frequency
immediately while leaving the phase — the whole of the state already-pulled
samples were computed from — untouched, the pending sample is unchanged
(no retroactive or interpolated transition), and the very next pull already
advances the phase using the new frequency. -/
theorem set_frequency_takes_effect_next_pull (p f g : ℚ) :
    ((SquareWave.set_frequency ⟨p, f⟩ g).frequency = g ∧
      (SquareWave.set_frequency ⟨p, f⟩ g).phase = p ∧
      (SquareWave.next (SquareWave.set_frequency ⟨p, f⟩ g)).1 = (SquareWave.next ⟨p, f⟩).1 ∧
      (SquareWave.next (SquareWave.set_frequency ⟨p, f⟩ g)).2.phase = phaseAdvance p g) ∧
    ((SawtoothWave.set_frequency ⟨p, f⟩ g).frequency = g ∧
      (SawtoothWave.set_frequency ⟨p, f⟩ g).phase = p ∧
      (SawtoothWave.next (SawtoothWave.set_frequency ⟨p, f⟩ g)).1 = (SawtoothWave.next ⟨p, f⟩).1 ∧
      (SawtoothWave.next (SawtoothWave.set_frequency ⟨p, f⟩ g)).2.phase = phaseAdvance p g) ∧
    ((TriangleWave.set_frequency ⟨p, f⟩ g).frequency = g ∧
      (TriangleWave.set_frequency ⟨p, f⟩ g).phase = p ∧
      (TriangleWave.next (TriangleWave.set_frequency ⟨p, f⟩ g)).1 = (TriangleWave.next ⟨p, f⟩).1 ∧
      (TriangleWave.next (TriangleWave.set_frequency ⟨p, f⟩ g)).2.phase = phaseAdvance p g) ∧
    ((SineWave.set_frequency ⟨p, f⟩ g).frequency = g ∧
      (SineWave.set_frequency ⟨p, f⟩ g).phase = p ∧
      (SineWave.next (SineWave.set_frequency ⟨p, f⟩ g)).1 = (SineWave.next ⟨p, f⟩).1 ∧
      (SineWave.next (SineWave.set_frequency ⟨p, f⟩ g)).2.phase = phaseAdvance p g) ∧
    ((SemiTriangle.set_frequency ⟨p, f⟩ g).frequency = g ∧
      (SemiTriangle.set_frequency ⟨p, f⟩ g).phase = p ∧
      (SemiTriangle.next (SemiTriangle.set_frequency ⟨p, f⟩ g)).1 = (SemiTriangle.next ⟨p, f⟩).1 ∧
      (SemiTriangle.next (SemiTriangle.set_frequency ⟨p, f⟩ g)).2.phase = phaseAdvance p g) ∧
    ((SemiSine.set_frequency ⟨p, f⟩ g).frequency = g ∧
      (SemiSine.set_frequency ⟨p, f⟩ g).phase = p ∧
      (SemiSine.next (SemiSine.set_frequency ⟨p, f⟩ g)).1 = (SemiSine.next ⟨p, f⟩).1 ∧
      (SemiSine.next (SemiSine.set_frequency ⟨p, f⟩ g)).2.phase = phaseAdvance p g) ∧
    ((StepSquare.set_frequency ⟨p, f⟩ g).frequency = g ∧
      (StepSquare.set_frequency ⟨p, f⟩ g).phase = p ∧
      (StepSquare.next (StepSquare.set_frequency ⟨p, f⟩ g)).1 = (StepSquare.next ⟨p, f⟩).1 ∧
      (StepSquare.next (StepSquare.set_frequency ⟨p, f⟩ g)).2.phase = phaseAdvance p g) :=
  ⟨⟨rfl, rfl, rfl, rfl⟩, ⟨rfl, rfl, rfl, rfl⟩, ⟨rfl, rfl, rfl, rfl⟩, ⟨rfl, rfl, rfl, rfl⟩,
    ⟨rfl, rfl, rfl, rfl⟩, ⟨rfl, rfl, rfl, rfl⟩, ⟨rfl, rfl, rfl, rfl⟩⟩

/-- C6: for every phase in [0,1), the step-square sample is the 4-level
staircase -1, 0, 1, 0 across the four quarters of the cycle (with the
code's boundaries: each quarter closed on the right at 1/4, 1/2, 3/4). -/
theorem step_square_staircase (p f : ℚ) (hp0 : 0 ≤ p) (hp1 : p < 1) :
    (p ≤ 1/4 → (StepSquare.next ⟨p, f⟩).1 = -1) ∧
    (1/4 < p → p ≤ 1/2 → (StepSquare.next ⟨p, f⟩).1 = 0) ∧
    (1/2 < p → p ≤ 3/4 → (StepSquare.next ⟨p, f⟩).1 = 1) ∧
    (3/4 < p → (StepSquare.next ⟨p, f⟩).1 = 0) := by
  refine ⟨fun h => ?_, fun h1 h2 => ?_, fun h1 h2 => ?_, fun h => ?_⟩ <;>
    simp only [StepSquare.next] <;> split_ifs with a b c <;> first | rfl | linarith

/-- Witness for C6: phases 0, 3/10, 6/10 and 9/10 satisfy the hypotheses and
give the four staircase levels -1, 0, 1, 0. -/
theorem step_square_staircase_witness :
    (0 : ℚ) ≤ 0 ∧ (0 : ℚ) < 1 ∧ (StepSquare.next ⟨0, 220⟩).1 = -1 ∧
      (StepSquare.next ⟨3/10, 220⟩).1 = 0 ∧
      (StepSquare.next ⟨6/10, 220⟩).1 = 1 ∧
      (StepSquare.next ⟨9/10, 220⟩).1 = 0 := by
  refine ⟨le_refl 0, by norm_num, ?_, ?_, ?_, ?_⟩
  · exact (step_square_staircase 0 220 (le_refl 0) (by norm_num)).1 (by norm_num)
  · exact (step_square_staircase (3/10) 220 (by norm_num) (by norm_num)).2.1
      (by norm_num) (by norm_num)
  · exact (step_square_staircase (6/10) 220 (by norm_num) (by norm_num)).2.2.1
      (by norm_num) (by norm_num)
  · exact (step_square_staircase (9/10) 220 (by norm_num) (by norm_num)).2.2.2
      (by norm_num)

/-- C10: for every deterministic generator, `set_frequency` produces the state
with the same phase and the new frequency (no other field exists), and for
`WhiteNoise` it returns the state entirely unchanged. -/
theorem set_frequency_state_effect (p f g : ℚ) (n : WhiteNoise) :
    SquareWave.set_frequency ⟨p, f⟩ g = ⟨p, g⟩ ∧
    SawtoothWave.set_frequency ⟨p, f⟩ g = ⟨p, g⟩ ∧
    TriangleWave.set_frequency ⟨p, f⟩ g = ⟨p, g⟩ ∧
    SineWave.set_frequency ⟨p, f⟩ g = ⟨p, g⟩ ∧
    SemiTriangle.set_frequency ⟨p, f⟩ g = ⟨p, g⟩ ∧
    SemiSine.set_frequency ⟨p, f⟩ g = ⟨p, g⟩ ∧
    StepSquare.set_frequency ⟨p, f⟩ g = ⟨p, g⟩ ∧
    WhiteNoise.set_frequency n g = n :=
  ⟨rfl, rfl, rfl, rfl, rfl, rfl, rfl, rfl⟩
